import Mathlib

/-!
# Connection lifecycle of the Firebird SQL driver (`connection.go`)

A shallow embedding of `firebirdsqlConn` and of the functions of
`connection.go` that sequence calls into the wire protocol, the transaction
object and the statement object: `begin`, `Begin`, `Close`, `prepare`, `exec`,
`query`, `newFirebirdsqlConn` and `createFirebirdsqlConn`.

The collaborators (`wireProtocol`, `firebirdsqlTx`, `firebirdsqlStmt`,
`parseDSN`, ...) live in other files of the package.  They are parameters of
the model: every call is appended to a log of operations (`Op`), and what the
call returns is given by an environment `Env` as an arbitrary function of the
log so far (and of the arguments).  So the theorems hold for every behaviour
of the collaborators, in particular for every pattern of failing and
succeeding responses.
-/

namespace Firebirdsql

/-! ## Data model -/

/-- A Go `error` value: `none` is `nil`, `some msg` is a non-nil error. -/
abbrev error := Option String

/-- A `driver.Value` argument; the connection only passes arguments through. -/
abbrev Value := Int

/-- A `driver.Result` as produced by a statement; passed through unchanged. -/
abbrev Result := Nat

/-- A `driver.Rows` cursor as produced by a statement; passed through unchanged. -/
abbrev Rows := Nat

/-- Modelled from the spec: the type `firebirdsqlStmt` is declared outside
`connection.go`; the connection only needs the identity of a statement. -/
structure firebirdsqlStmt where
  id : Nat
  deriving DecidableEq, Repr

/-- Modelled from the spec: the type `firebirdsqlTx` is declared outside
`connection.go`.  The spec gives a transaction an isolation level, an
autocommit flag and a server-assigned handle; `connection.go` reads
`isAutocommit`. -/
structure firebirdsqlTx where
  isolationLevel : Int
  isAutocommit : Bool
  transHandle : Int
  deriving DecidableEq, Repr

/-- Modelled from the spec: the type `wireProtocol` is declared outside
`connection.go`; `conn` identifies the transport and `dbHandle` is the field
the constructors assign from the attach/create response. -/
structure wireProtocol where
  conn : Nat
  dbHandle : Int
  deriving DecidableEq, Repr

/-- The struct `firebirdsqlConn`.  `tx` is a pointer in the source, `none` is
the nil pointer.  `timeZoneIds` is the map filled by `loadTimeZoneId`. -/
structure firebirdsqlConn where
  wp : wireProtocol
  tx : Option firebirdsqlTx
  addr : String
  dbName : String
  user : String
  password : String
  columnNameToLower : Bool
  isAutocommit : Bool
  clientPublic : Option Nat
  clientSecret : Option Nat
  transHandles : List Int
  timeZoneIds : List (Nat × String)
  deriving DecidableEq, Repr

/-- One call from `connection.go` into a collaborator, with the arguments
that the connection chooses. -/
inductive Op where
  | parseDSN (dsn : String)
  | newWireProtocol (addr : String)
  | getClientSeed
  | opConnect (dbName user password : String) (options : List (String × String))
      (clientPublic : Nat)
  | opAccept (user password : String) (options : List (String × String))
      (clientPublic clientSecret : Nat)
  | opAttach (dbName user password role : String)
  | opCreate (dbName user password role : String)
  | opResponse
  | opRollback (h : Int)
  | opDetach
  | connClose
  | newFirebirdsqlTx (isolationLevel : Int) (isAutocommit : Bool)
  | txCommit (tx : firebirdsqlTx)
  | newFirebirdsqlStmt (query : String)
  | stmtExec (stmt : firebirdsqlStmt) (args : List Value)
  | stmtQuery (stmt : firebirdsqlStmt) (args : List Value)
  | stmtClose (stmt : firebirdsqlStmt)
  deriving DecidableEq, Repr

/-- The log of calls made so far, oldest first. -/
abbrev Trace := List Op

/-- What `parseDSN` returns: `addr, dbName, user, password, options, err`. -/
structure DSN where
  addr : String
  dbName : String
  user : String
  password : String
  options : List (String × String)
  err : error
  deriving DecidableEq, Repr

/-- What `opResponse` returns: `(handle, data, numericResult, err)`. -/
structure Response where
  handle : Int
  data : List Nat
  numericResult : Int
  err : error
  deriving DecidableEq, Repr

/-- What a collaborator that holds the session pointer `fc` returns: its
value, its error, and the tracked-handle list it leaves in the session.
`connection.go` reads `transHandles` (in `Close`) and never writes it, so the
list is maintained by these collaborators; the fields `tx` and `isAutocommit`
are the ones `connection.go` assigns itself. -/
structure Reply (α : Type) where
  val : α
  err : error
  transHandles : List Int

/-- The collaborators of `connection.go`.  Each function receives the log of
the calls made before it, so that its answer may differ from call to call. -/
structure Env where
  /-- The constant `ISOLATION_LEVEL_READ_COMMITED`, declared elsewhere. -/
  ISOLATION_LEVEL_READ_COMMITED : Int
  /-- The literal map that `loadTimeZoneId` assigns (static data). -/
  timeZoneTable : List (Nat × String)
  parseDSN : Trace → String → DSN
  newWireProtocol : Trace → String → wireProtocol × error
  convertToBool : String → Bool → Bool
  getClientSeed : Trace → Nat × Nat
  opAccept : Trace → String → String → List (String × String) → Nat → Nat → error
  opResponse : Trace → Response
  newFirebirdsqlTx : Trace → firebirdsqlConn → Int → Bool → Reply (Option firebirdsqlTx)
  txCommit : Trace → firebirdsqlConn → firebirdsqlTx → Reply Unit
  newFirebirdsqlStmt : Trace → firebirdsqlConn → String → Reply firebirdsqlStmt
  stmtExec : Trace → firebirdsqlConn → firebirdsqlStmt → List Value → Reply (Option Result)
  stmtQuery : Trace → firebirdsqlConn → firebirdsqlStmt → List Value → Reply (Option Rows)
  stmtClose : Trace → firebirdsqlConn → firebirdsqlStmt → Reply Unit

/-- How a call ends: it returns a value, or the Go runtime stops it at a nil
pointer dereference. -/
inductive Outcome (α : Type) where
  | ret (a : α)
  | nilDeref
  deriving DecidableEq, Repr

/-! ## `Close` -/

/-- The loop `for _, h := range fc.transHandles { fc.wp.opRollback(h) }`:
one rollback request per element, in order. -/
def rollbackAll (hs : List Int) (t : Trace) : Trace :=
  hs.foldl (fun acc h => acc ++ [Op.opRollback h]) t

/-- `func (fc *firebirdsqlConn) Close() (err error)`: the rollback loop, one
`opResponse`, an early return when it reports an error, then `opDetach`, a
second `opResponse` and `wp.conn.Close()`. -/
def Close (env : Env) (fc : firebirdsqlConn) (t0 : Trace) : error × Trace :=
  let t1 := rollbackAll fc.transHandles t0
  let r1 := env.opResponse t1
  let t2 := t1 ++ [Op.opResponse]
  match r1.err with
  | some e => (some e, t2)
  | none =>
    let t3 := t2 ++ [Op.opDetach]
    let r2 := env.opResponse t3
    let t4 := t3 ++ [Op.opResponse]
    let t5 := t4 ++ [Op.connClose]
    (r2.err, t5)

/-! ## Transactions -/

/-- `func (fc *firebirdsqlConn) begin(isolationLevel int) (driver.Tx, error)`:
`tx, err := newFirebirdsqlTx(fc, isolationLevel, false)`, then `fc.tx = tx`,
then `return driver.Tx(tx), err`. -/
def begin (env : Env) (fc : firebirdsqlConn) (isolationLevel : Int) (t0 : Trace) :
    (Option firebirdsqlTx × error) × firebirdsqlConn × Trace :=
  let r := env.newFirebirdsqlTx t0 fc isolationLevel false
  let t1 := t0 ++ [Op.newFirebirdsqlTx isolationLevel false]
  let fc1 := { fc with transHandles := r.transHandles, tx := r.val }
  ((r.val, r.err), fc1, t1)

/-- `func (fc *firebirdsqlConn) Begin() (driver.Tx, error)`. -/
def Begin (env : Env) (fc : firebirdsqlConn) (t0 : Trace) :
    (Option firebirdsqlTx × error) × firebirdsqlConn × Trace :=
  begin env fc env.ISOLATION_LEVEL_READ_COMMITED t0

/-! ## Statements -/

/-- `func (fc *firebirdsqlConn) prepare(ctx, query) (driver.Stmt, error)`:
`return newFirebirdsqlStmt(fc, query)`. -/
def prepare (env : Env) (fc : firebirdsqlConn) (query : String) (t0 : Trace) :
    (firebirdsqlStmt × error) × firebirdsqlConn × Trace :=
  let r := env.newFirebirdsqlStmt t0 fc query
  ((r.val, r.err), { fc with transHandles := r.transHandles },
    t0 ++ [Op.newFirebirdsqlStmt query])

/-- `func (fc *firebirdsqlConn) exec(ctx, query, args) (result driver.Result, err error)`:
prepare, early return on error; the statement's `exec`, early return on
error; `fc.tx.Commit()` when `fc.isAutocommit && fc.tx.isAutocommit`;
`stmt.Close()`; return. -/
def exec (env : Env) (fc : firebirdsqlConn) (query : String) (args : List Value)
    (t0 : Trace) : Outcome (Option Result × error) × firebirdsqlConn × Trace :=
  match prepare env fc query t0 with
  | ((_, some e), fc1, t1) => (.ret (none, some e), fc1, t1)
  | ((stmt, none), fc1, t1) =>
    let x := env.stmtExec t1 fc1 stmt args
    let t2 := t1 ++ [Op.stmtExec stmt args]
    let fc2 := { fc1 with transHandles := x.transHandles }
    match x.err with
    | some e => (.ret (x.val, some e), fc2, t2)
    | none =>
      if fc2.isAutocommit then
        match fc2.tx with
        | none => (.nilDeref, fc2, t2)
        | some tx =>
          if tx.isAutocommit then
            let c := env.txCommit t2 fc2 tx
            let t3 := t2 ++ [Op.txCommit tx]
            let fc3 := { fc2 with transHandles := c.transHandles }
            let z := env.stmtClose t3 fc3 stmt
            (.ret (x.val, none), { fc3 with transHandles := z.transHandles },
              t3 ++ [Op.stmtClose stmt])
          else
            let z := env.stmtClose t2 fc2 stmt
            (.ret (x.val, none), { fc2 with transHandles := z.transHandles },
              t2 ++ [Op.stmtClose stmt])
      else
        let z := env.stmtClose t2 fc2 stmt
        (.ret (x.val, none), { fc2 with transHandles := z.transHandles },
          t2 ++ [Op.stmtClose stmt])

/-- `func (fc *firebirdsqlConn) query(ctx, query, args) (rows driver.Rows, err error)`:
prepare, early return on error; then `rows, err = stmt.query(ctx, args)`. -/
def query (env : Env) (fc : firebirdsqlConn) (q : String) (args : List Value)
    (t0 : Trace) : (Option Rows × error) × firebirdsqlConn × Trace :=
  match prepare env fc q t0 with
  | ((_, some e), fc1, t1) => ((none, some e), fc1, t1)
  | ((stmt, none), fc1, t1) =>
    let x := env.stmtQuery t1 fc1 stmt args
    ((x.val, x.err), { fc1 with transHandles := x.transHandles },
      t1 ++ [Op.stmtQuery stmt args])

/-! ## Construction -/

/-- The map index `options[key]` of Go: the empty string when the key is absent. -/
def optionsGet (options : List (String × String)) (key : String) : String :=
  (options.lookup key).getD ""

/-- `func (fc *firebirdsqlConn) loadTimeZoneId()`: assigns the static table. -/
def loadTimeZoneId (env : Env) (fc : firebirdsqlConn) : firebirdsqlConn :=
  { fc with timeZoneIds := env.timeZoneTable }

/-- The part shared word for word by `newFirebirdsqlConn` and
`createFirebirdsqlConn`, from `fc = new(firebirdsqlConn)` to `return fc, err`. -/
def assemble (env : Env) (wp : wireProtocol) (d : DSN) (columnNameToLower : Bool)
    (clientPublic clientSecret : Nat) (t : Trace) :
    (Option firebirdsqlConn × error) × Trace :=
  let fc : firebirdsqlConn :=
    { wp := wp, tx := none, addr := d.addr, dbName := d.dbName, user := d.user,
      password := d.password, columnNameToLower := columnNameToLower,
      isAutocommit := true, clientPublic := none, clientSecret := none,
      transHandles := [], timeZoneIds := [] }
  let r := env.newFirebirdsqlTx t fc env.ISOLATION_LEVEL_READ_COMMITED fc.isAutocommit
  let t1 := t ++ [Op.newFirebirdsqlTx env.ISOLATION_LEVEL_READ_COMMITED fc.isAutocommit]
  let fc1 := { fc with transHandles := r.transHandles, tx := r.val }
  let fc2 := { fc1 with clientPublic := some clientPublic, clientSecret := some clientSecret }
  (((some (loadTimeZoneId env fc2)), r.err), t1)

/-- The body of the two constructors; `request` is the one call in which they
differ, `wp.opAttach(...)` or `wp.opCreate(...)`. -/
def construct (env : Env) (request : String → String → String → String → Op)
    (dsn : String) (t0 : Trace) : (Option firebirdsqlConn × error) × Trace :=
  let d := env.parseDSN t0 dsn
  let t1 := t0 ++ [Op.parseDSN dsn]
  let w := env.newWireProtocol t1 d.addr
  let t2 := t1 ++ [Op.newWireProtocol d.addr]
  match w.2 with
  | some e => ((none, some e), t2)
  | none =>
    let columnNameToLower := env.convertToBool (optionsGet d.options "column_name_to_lower") false
    let seed := env.getClientSeed t2
    let t3 := t2 ++ [Op.getClientSeed]
    let t4 := t3 ++ [Op.opConnect d.dbName d.user d.password d.options seed.1]
    let a := env.opAccept t4 d.user d.password d.options seed.1 seed.2
    let t5 := t4 ++ [Op.opAccept d.user d.password d.options seed.1 seed.2]
    match a with
    | some e => ((none, some e), t5)
    | none =>
      let t6 := t5 ++ [request d.dbName d.user d.password (optionsGet d.options "role")]
      let r := env.opResponse t6
      let t7 := t6 ++ [Op.opResponse]
      match r.err with
      | some e => ((none, some e), t7)
      | none =>
        assemble env { w.1 with dbHandle := r.handle } d columnNameToLower seed.1 seed.2 t7

/-- `func newFirebirdsqlConn(dsn string) (fc *firebirdsqlConn, err error)`. -/
def newFirebirdsqlConn (env : Env) (dsn : String) (t0 : Trace) :
    (Option firebirdsqlConn × error) × Trace :=
  construct env Op.opAttach dsn t0

/-- `func createFirebirdsqlConn(dsn string) (fc *firebirdsqlConn, err error)`. -/
def createFirebirdsqlConn (env : Env) (dsn : String) (t0 : Trace) :
    (Option firebirdsqlConn × error) × Trace :=
  construct env Op.opCreate dsn t0

/-- The two construction paths. -/
inductive Path where
  | attach
  | create
  deriving DecidableEq, Repr

/-- The request a path sends after the handshake. -/
def Path.request : Path → String → String → String → String → Op
  | .attach => Op.opAttach
  | .create => Op.opCreate

/-- The constructor of a path. -/
def Path.run : Path → Env → String → Trace → (Option firebirdsqlConn × error) × Trace
  | .attach => newFirebirdsqlConn
  | .create => createFirebirdsqlConn

/-! ## What the collaborators answer along a construction

These name the answers of the environment at the successive calls of a
constructor started on the log `t0`, and the log after each step. -/

/-- The log after `parseDSN` and `newWireProtocol`. -/
def openTrace (env : Env) (dsn : String) (t0 : Trace) : Trace :=
  t0 ++ [Op.parseDSN dsn, Op.newWireProtocol (env.parseDSN t0 dsn).addr]

/-- The error of `newWireProtocol(addr)`: opening the transport. -/
def openErr (env : Env) (dsn : String) (t0 : Trace) : error :=
  (env.newWireProtocol (t0 ++ [Op.parseDSN dsn]) (env.parseDSN t0 dsn).addr).2

/-- The log after `getClientSeed` and `opConnect`. -/
def connectTrace (env : Env) (dsn : String) (t0 : Trace) : Trace :=
  let d := env.parseDSN t0 dsn
  openTrace env dsn t0 ++
    [Op.getClientSeed,
     Op.opConnect d.dbName d.user d.password d.options
       (env.getClientSeed (openTrace env dsn t0)).1]

/-- The error of `wp.opAccept(...)`: the accept step of the handshake. -/
def acceptErr (env : Env) (dsn : String) (t0 : Trace) : error :=
  let d := env.parseDSN t0 dsn
  let seed := env.getClientSeed (openTrace env dsn t0)
  env.opAccept (connectTrace env dsn t0) d.user d.password d.options seed.1 seed.2

/-- The log after `opAccept`. -/
def acceptTrace (env : Env) (dsn : String) (t0 : Trace) : Trace :=
  let d := env.parseDSN t0 dsn
  let seed := env.getClientSeed (openTrace env dsn t0)
  connectTrace env dsn t0 ++ [Op.opAccept d.user d.password d.options seed.1 seed.2]

/-- The log after the attach or create request. -/
def requestTrace (env : Env) (p : Path) (dsn : String) (t0 : Trace) : Trace :=
  let d := env.parseDSN t0 dsn
  acceptTrace env dsn t0 ++
    [p.request d.dbName d.user d.password (optionsGet d.options "role")]

/-- The error of the `opResponse` that answers the attach or create request. -/
def responseErr (env : Env) (p : Path) (dsn : String) (t0 : Trace) : error :=
  (env.opResponse (requestTrace env p dsn t0)).err

/-- The log after that response has been read. -/
def respondedTrace (env : Env) (p : Path) (dsn : String) (t0 : Trace) : Trace :=
  requestTrace env p dsn t0 ++ [Op.opResponse]

/-! ## What the collaborators answer along `exec` -/

/-- The statement that `prepare` hands to `exec` and `query`. -/
def preparedStmt (env : Env) (fc : firebirdsqlConn) (query : String) (t0 : Trace) :
    firebirdsqlStmt :=
  (prepare env fc query t0).1.1

/-- The error of `prepare`. -/
def prepareErr (env : Env) (fc : firebirdsqlConn) (query : String) (t0 : Trace) : error :=
  (prepare env fc query t0).1.2

/-- The reply of the statement's `exec`, called after `prepare`. -/
def executeReply (env : Env) (fc : firebirdsqlConn) (query : String) (args : List Value)
    (t0 : Trace) : Reply (Option Result) :=
  env.stmtExec (prepare env fc query t0).2.2 (prepare env fc query t0).2.1
    (preparedStmt env fc query t0) args

/-- The reply of the statement's `query`, called after `prepare`. -/
def queryReply (env : Env) (fc : firebirdsqlConn) (q : String) (args : List Value)
    (t0 : Trace) : Reply (Option Rows) :=
  env.stmtQuery (prepare env fc q t0).2.2 (prepare env fc q t0).2.1
    (preparedStmt env fc q t0) args

/-! ## Concrete environments and sessions -/

/-- A server in which every call succeeds; each new transaction gets handle 7
and is recorded in the tracked-handle list. -/
def envOk : Env where
  ISOLATION_LEVEL_READ_COMMITED := 1
  timeZoneTable := [(65535, " GMT")]
  parseDSN := fun _ _ => ⟨"localhost:3050", "/tmp/test.fdb", "sysdba", "masterkey", [], none⟩
  newWireProtocol := fun _ _ => (⟨1, 0⟩, none)
  convertToBool := fun _ b => b
  getClientSeed := fun _ => (5, 11)
  opAccept := fun _ _ _ _ _ _ => none
  opResponse := fun _ => ⟨3, [], 0, none⟩
  newFirebirdsqlTx := fun _ fc l a => ⟨some ⟨l, a, 7⟩, none, fc.transHandles ++ [7]⟩
  txCommit := fun _ fc _ => ⟨(), none, fc.transHandles⟩
  newFirebirdsqlStmt := fun _ fc _ => ⟨⟨1⟩, none, fc.transHandles⟩
  stmtExec := fun _ fc _ _ => ⟨some 1, none, fc.transHandles⟩
  stmtQuery := fun _ fc _ _ => ⟨some 1, none, fc.transHandles⟩
  stmtClose := fun _ fc _ => ⟨(), none, fc.transHandles⟩

/-- As `envOk`, but every response read reports an error. -/
def envResponseFails : Env :=
  { envOk with opResponse := fun _ => ⟨0, [], 0, some "response failed"⟩ }

/-- As `envOk`, but the statement's `exec` reports an error. -/
def envExecuteFails : Env :=
  { envOk with stmtExec := fun _ fc _ _ => ⟨none, some "execute failed", fc.transHandles⟩ }

/-- As `envOk`, but `prepare` reports an error. -/
def envPrepareFails : Env :=
  { envOk with newFirebirdsqlStmt := fun _ fc _ => ⟨⟨0⟩, some "prepare failed", fc.transHandles⟩ }

/-- As `envOk`, but the transport cannot be opened. -/
def envOpenFails : Env :=
  { envOk with newWireProtocol := fun _ _ => (⟨0, 0⟩, some "dial failed") }

/-- As `envOk`, but the accept step of the handshake fails. -/
def envAcceptFails : Env :=
  { envOk with opAccept := fun _ _ _ _ _ _ => some "accept failed" }

/-- The default transaction of the sample session. -/
def tx0 : firebirdsqlTx := ⟨1, true, 7⟩

/-- A session as construction leaves it: autocommit, default transaction
`tx0`, one tracked handle. -/
def fc0 : firebirdsqlConn where
  wp := ⟨1, 3⟩
  tx := some tx0
  addr := "localhost:3050"
  dbName := "/tmp/test.fdb"
  user := "sysdba"
  password := "masterkey"
  columnNameToLower := false
  isAutocommit := true
  clientPublic := some 5
  clientSecret := some 11
  transHandles := [7]
  timeZoneIds := [(65535, " GMT")]

/-- The sample session with two tracked handles. -/
def fc2 : firebirdsqlConn := { fc0 with transHandles := [7, 8] }

/-- The sample session with no tracked handle. -/
def fcNone : firebirdsqlConn := { fc0 with transHandles := [] }

/-- The number of `opResponse` calls in a log. -/
def responsesRead (t : Trace) : Nat := t.count Op.opResponse

/-- The number of `wp.conn.Close()` calls in a log. -/
def transportReleases (t : Trace) : Nat := t.count Op.connClose

/-- The statements closed in a log, in order. -/
def closedStmts (t : Trace) : List firebirdsqlStmt :=
  t.filterMap (fun op => match op with
    | Op.stmtClose s => some s
    | _ => none)

/-- The transactions committed in a log, in order. -/
def committed (t : Trace) : List firebirdsqlTx :=
  t.filterMap (fun op => match op with
    | Op.txCommit tx => some tx
    | _ => none)

/-- The transactions requested in a log: level and autocommit flag, in order. -/
def txRequests (t : Trace) : List (Int × Bool) :=
  t.filterMap (fun op => match op with
    | Op.newFirebirdsqlTx l a => some (l, a)
    | _ => none)

/-- The attach and create requests in a log, in order. -/
def dbRequests (t : Trace) : List Op :=
  t.filter (fun op => match op with
    | Op.opAttach _ _ _ _ => true
    | Op.opCreate _ _ _ _ => true
    | _ => false)

/-- Two `exec` calls in a row on one session, with no call in between: the
second runs on the session and the log the first one leaves. -/
def execTwice (env : Env) (fc : firebirdsqlConn) (q1 : String) (a1 : List Value)
    (q2 : String) (a2 : List Value) (t0 : Trace) :
    Outcome (Option Result × error) × firebirdsqlConn × Trace :=
  exec env (exec env fc q1 a1 t0).2.1 q2 a2 (exec env fc q1 a1 t0).2.2

/-- The environment `env` with other answers for `Commit` and for the
statement's `Close`. -/
def withCommitClose (env : Env) (c : Trace → firebirdsqlConn → firebirdsqlTx → Reply Unit)
    (z : Trace → firebirdsqlConn → firebirdsqlStmt → Reply Unit) : Env :=
  { env with txCommit := c, stmtClose := z }

/-- The environment `env` with another error answered by `parseDSN`, the
other values it returns being the same. -/
def withParseErr (env : Env) (f : Trace → String → error) : Env :=
  { env with parseDSN := fun t dsn => { env.parseDSN t dsn with err := f t dsn } }

/-- As `envOk`, but `Commit` and the statement's `Close` report errors. -/
def envCommitFails : Env :=
  withCommitClose envOk (fun _ fc _ => ⟨(), some "commit failed", fc.transHandles⟩)
    (fun _ fc _ => ⟨(), some "close failed", fc.transHandles⟩)

/-- As `envOk`, but `parseDSN` reports an error. -/
def envParseFails : Env :=
  withParseErr envOk (fun _ _ => some "invalid DSN")

/-- As `envOk`, but the request of a new transaction fails and yields the nil
transaction. -/
def envTxFails : Env :=
  { envOk with newFirebirdsqlTx := fun _ fc _ _ => ⟨none, some "begin failed", fc.transHandles⟩ }

/-- The sample session with a nil current transaction. -/
def fcNoTx : firebirdsqlConn := { fc0 with tx := none }

/-! ## Theorems -/

/-- The rollback loop appends one request per handle, in list order. -/
theorem rollbackAll_eq (hs : List Int) (t : Trace) :
    rollbackAll hs t = t ++ hs.map Op.opRollback := by
  unfold rollbackAll
  induction hs generalizing t with
  | nil => simp
  | cons h hs ih => simp [List.foldl_cons, ih]

/-- The log of `Close` when the first response reports an error. -/
theorem Close_trace_of_error (env : Env) (fc : firebirdsqlConn) (t0 : Trace) (e : String)
    (h : (env.opResponse (t0 ++ fc.transHandles.map Op.opRollback)).err = some e) :
    Close env fc t0 = (some e, t0 ++ fc.transHandles.map Op.opRollback ++ [Op.opResponse]) := by
  simp only [Close, rollbackAll_eq, h]

/-- The log of `Close` when the first response succeeds. -/
theorem Close_trace_of_ok (env : Env) (fc : firebirdsqlConn) (t0 : Trace)
    (h : (env.opResponse (t0 ++ fc.transHandles.map Op.opRollback)).err = none) :
    (Close env fc t0).2 = t0 ++ fc.transHandles.map Op.opRollback ++
      [Op.opResponse, Op.opDetach, Op.opResponse, Op.connClose] := by
  simp only [Close, rollbackAll_eq, h]
  simp

/-- C1, evaluated on the code: on the sample session, when the response read
after the rollback request reports an error, `Close` returns that error after
the calls `opRollback 7`, `opResponse` and nothing else; the transport is
released zero times, not once. -/
theorem Close_response_error_never_releases_transport :
    Close envResponseFails fc0 [] =
      (some "response failed", [Op.opRollback 7, Op.opResponse]) ∧
    transportReleases (Close envResponseFails fc0 []).2 = 0 := by
  decide

/-- C3, evaluated on the code: with every response succeeding, `Close` reads
two responses whatever the number of tracked handles: two for the two
rollback requests and the detach request of a session with two handles
(three requests), and two for a session with no handle (one request, the
detach). -/
theorem Close_reads_two_responses :
    fc2.transHandles.length = 2 ∧
    (Close envOk fc2 []).2 =
      [Op.opRollback 7, Op.opRollback 8, Op.opResponse, Op.opDetach, Op.opResponse,
        Op.connClose] ∧
    responsesRead (Close envOk fc2 []).2 = 2 ∧
    fcNone.transHandles.length = 0 ∧
    (Close envOk fcNone []).2 = [Op.opResponse, Op.opDetach, Op.opResponse, Op.connClose] ∧
    responsesRead (Close envOk fcNone []).2 = 2 := by
  decide

/-- C4: the log of `Close` is the log before it, then one `opRollback` per
element of `transHandles` in list order, then a remainder that holds no
rollback request and is either the single failed response or response,
detach, response, transport release; hence each handle is requested as often
as it occurs in the list, and every rollback comes before the detach. -/
theorem Close_rollback_requests (env : Env) (fc : firebirdsqlConn) (t0 : Trace) :
    ∃ rest : Trace,
      (Close env fc t0).2 = t0 ++ fc.transHandles.map Op.opRollback ++ rest ∧
      (rest = [Op.opResponse] ∨
        rest = [Op.opResponse, Op.opDetach, Op.opResponse, Op.connClose]) ∧
      (∀ h : Int, Op.opRollback h ∉ rest) ∧
      (∀ h : Int, (fc.transHandles.map Op.opRollback ++ rest).count (Op.opRollback h) =
        fc.transHandles.count h) := by
  have hcount : ∀ (rest : Trace) (h : Int), Op.opRollback h ∉ rest →
      (fc.transHandles.map Op.opRollback ++ rest).count (Op.opRollback h) =
        fc.transHandles.count h := by
    intro rest h hn
    rw [List.count_append, List.count_eq_zero_of_not_mem hn, Nat.add_zero]
    exact List.count_map_of_injective _ _ (fun a b hab => by injection hab) h
  cases hr : (env.opResponse (t0 ++ fc.transHandles.map Op.opRollback)).err with
  | some e =>
    refine ⟨[Op.opResponse], ?_, Or.inl rfl, ?_, ?_⟩
    · rw [Close_trace_of_error env fc t0 e hr]
    · intro h; simp
    · intro h; exact hcount _ h (by simp)
  | none =>
    refine ⟨[Op.opResponse, Op.opDetach, Op.opResponse, Op.connClose], ?_, Or.inr rfl, ?_, ?_⟩
    · rw [Close_trace_of_ok env fc t0 hr]
    · intro h; simp
    · intro h; exact hcount _ h (by simp)

/-- C2, evaluated on the code: on the sample session, when prepare succeeds
and the statement's `exec` reports an error, `exec` returns that error after
the calls prepare and execute only; the prepared statement is closed zero
times, not once. -/
theorem exec_execute_error_never_closes_stmt :
    prepareErr envExecuteFails fc0 "INSERT" [] = none ∧
    (executeReply envExecuteFails fc0 "INSERT" [] []).err = some "execute failed" ∧
    exec envExecuteFails fc0 "INSERT" [] [] =
      (Outcome.ret (none, some "execute failed"), fc0,
        [Op.newFirebirdsqlStmt "INSERT", Op.stmtExec ⟨1⟩ []]) ∧
    closedStmts (exec envExecuteFails fc0 "INSERT" [] []).2.2 = [] := by
  decide

/-- C5: when prepare and execute both succeed on a session whose current
transaction is `tx`, `exec` returns, and its calls are prepare, execute, then
`tx.Commit()` exactly when `fc.isAutocommit` and `tx.isAutocommit` are both
true, then the statement's close; so the commits it makes are `[tx]` in that
case and none otherwise. -/
theorem exec_commits_once_iff_autocommit (env : Env) (fc : firebirdsqlConn) (query : String)
    (args : List Value) (t0 : Trace) (tx : firebirdsqlTx)
    (hp : prepareErr env fc query t0 = none)
    (hx : (executeReply env fc query args t0).err = none)
    (htx : fc.tx = some tx) :
    (exec env fc query args t0).1 = Outcome.ret ((executeReply env fc query args t0).val, none) ∧
    (exec env fc query args t0).2.2 =
      t0 ++ [Op.newFirebirdsqlStmt query, Op.stmtExec (preparedStmt env fc query t0) args] ++
        (if fc.isAutocommit = true ∧ tx.isAutocommit = true then [Op.txCommit tx] else []) ++
        [Op.stmtClose (preparedStmt env fc query t0)] ∧
    committed ((exec env fc query args t0).2.2.drop t0.length) =
      (if fc.isAutocommit = true ∧ tx.isAutocommit = true then [tx] else []) := by
  cases fc with
  | mk wp ftx addr dbName user password lower auto cpub csec hs tz =>
    simp only at htx
    subst htx
    simp only [prepareErr, executeReply, preparedStmt, prepare] at hp hx
    have key : (exec env ⟨wp, some tx, addr, dbName, user, password, lower, auto, cpub, csec,
          hs, tz⟩ query args t0).2.2 =
        t0 ++ [Op.newFirebirdsqlStmt query, Op.stmtExec (env.newFirebirdsqlStmt t0
          ⟨wp, some tx, addr, dbName, user, password, lower, auto, cpub, csec, hs, tz⟩
            query).val args] ++
          (if auto = true ∧ tx.isAutocommit = true then [Op.txCommit tx] else []) ++
          [Op.stmtClose (env.newFirebirdsqlStmt t0
            ⟨wp, some tx, addr, dbName, user, password, lower, auto, cpub, csec, hs, tz⟩
              query).val] := by
      simp only [exec, prepare, hp, hx]
      cases auto <;> cases ht : tx.isAutocommit <;> simp
    refine ⟨?_, ?_, ?_⟩
    · simp only [exec, prepare, executeReply, preparedStmt, hp, hx]
      cases auto <;> cases ht : tx.isAutocommit <;> simp
    · simpa only [preparedStmt, prepare] using key
    · rw [key]
      cases auto <;> cases ht : tx.isAutocommit <;>
        simp [committed, List.append_assoc]

/-- The sample session, prepared and executed with success, commits `tx0` once. -/
theorem exec_commits_once_iff_autocommit_witness :
    prepareErr envOk fc0 "INSERT" [] = none ∧
    (executeReply envOk fc0 "INSERT" [] []).err = none ∧
    fc0.tx = some tx0 ∧
    (exec envOk fc0 "INSERT" [] []).2.2 =
      [Op.newFirebirdsqlStmt "INSERT", Op.stmtExec ⟨1⟩ [], Op.txCommit tx0, Op.stmtClose ⟨1⟩] ∧
    committed ((exec envOk fc0 "INSERT" [] []).2.2.drop 0) = [tx0] :=
  ⟨by decide, by decide, rfl,
    (exec_commits_once_iff_autocommit envOk fc0 "INSERT" [] [] tx0
      (by decide) (by decide) rfl).2.1,
    (exec_commits_once_iff_autocommit envOk fc0 "INSERT" [] [] tx0
      (by decide) (by decide) rfl).2.2⟩

/-- C6: whatever the session and its flags, the calls of `query` are prepare
alone when prepare reports an error, and prepare followed by the statement's
`query` otherwise; in the second case it returns the rows and the error of
that call unchanged.  No commit and no statement close is among its calls. -/
theorem query_never_commits_nor_closes (env : Env) (fc : firebirdsqlConn) (q : String)
    (args : List Value) (t0 : Trace) :
    (query env fc q args t0).2.2 =
      t0 ++ (if (prepareErr env fc q t0).isSome then [Op.newFirebirdsqlStmt q]
        else [Op.newFirebirdsqlStmt q, Op.stmtQuery (preparedStmt env fc q t0) args]) ∧
    (query env fc q args t0).1 =
      (if (prepareErr env fc q t0).isSome then (none, prepareErr env fc q t0)
        else ((queryReply env fc q args t0).val, (queryReply env fc q args t0).err)) ∧
    committed ((query env fc q args t0).2.2.drop t0.length) = [] ∧
    closedStmts ((query env fc q args t0).2.2.drop t0.length) = [] ∧
    (query env fc q args t0).2.1.tx = fc.tx ∧
    (query env fc q args t0).2.1.isAutocommit = fc.isAutocommit := by
  simp only [query, prepare, prepareErr, preparedStmt, queryReply]
  cases hp : (env.newFirebirdsqlStmt t0 fc q).err <;>
    simp [committed, closedStmts]

/-- C8: when prepare reports the error `e`, `exec` and `query` both return
no result together with `e`, and prepare is the only call either of them
makes. -/
theorem prepare_error_short_circuits (env : Env) (fc : firebirdsqlConn) (q : String)
    (args : List Value) (t0 : Trace) (e : String)
    (hp : prepareErr env fc q t0 = some e) :
    (exec env fc q args t0).1 = Outcome.ret (none, some e) ∧
    (exec env fc q args t0).2.2 = t0 ++ [Op.newFirebirdsqlStmt q] ∧
    (query env fc q args t0).1 = (none, some e) ∧
    (query env fc q args t0).2.2 = t0 ++ [Op.newFirebirdsqlStmt q] := by
  simp only [prepareErr, prepare] at hp
  simp only [exec, query, prepare, hp]
  simp

/-- On the sample session a failing prepare is the only call of `exec` and `query`. -/
theorem prepare_error_short_circuits_witness :
    prepareErr envPrepareFails fc0 "SELECT" [] = some "prepare failed" ∧
    (exec envPrepareFails fc0 "SELECT" [] []).1 = Outcome.ret (none, some "prepare failed") ∧
    (exec envPrepareFails fc0 "SELECT" [] []).2.2 = [] ++ [Op.newFirebirdsqlStmt "SELECT"] ∧
    (query envPrepareFails fc0 "SELECT" [] []).1 = (none, some "prepare failed") ∧
    (query envPrepareFails fc0 "SELECT" [] []).2.2 = [] ++ [Op.newFirebirdsqlStmt "SELECT"] :=
  ⟨by decide,
    prepare_error_short_circuits envPrepareFails fc0 "SELECT" [] [] "prepare failed" (by decide)⟩

/-- C10: `begin` with level `L` makes exactly one call, the request of a new
transaction with level `L` and autocommit flag false; the transaction that
request yields becomes the session's current transaction and is the one
returned, with the request's error; `Begin` is `begin` with
`ISOLATION_LEVEL_READ_COMMITED`. -/
theorem begin_replaces_current (env : Env) (fc : firebirdsqlConn) (L : Int) (t0 : Trace) :
    (begin env fc L t0).2.2 = t0 ++ [Op.newFirebirdsqlTx L false] ∧
    (begin env fc L t0).1 =
      ((env.newFirebirdsqlTx t0 fc L false).val, (env.newFirebirdsqlTx t0 fc L false).err) ∧
    (begin env fc L t0).2.1.tx = (begin env fc L t0).1.1 ∧
    (begin env fc L t0).2.1.isAutocommit = fc.isAutocommit ∧
    Begin env fc t0 = begin env fc env.ISOLATION_LEVEL_READ_COMMITED t0 := by
  simp [begin, Begin]

/-- The log and result of a constructor whose transport cannot be opened. -/
theorem run_of_openErr (env : Env) (p : Path) (dsn : String) (t0 : Trace) (e : String)
    (ho : openErr env dsn t0 = some e) :
    p.run env dsn t0 = ((none, some e), openTrace env dsn t0) := by
  simp only [openErr] at ho
  cases p <;>
    simp [Path.run, newFirebirdsqlConn, createFirebirdsqlConn, construct, openTrace, ho]

/-- The log and result of a constructor whose handshake is not accepted. -/
theorem run_of_acceptErr (env : Env) (p : Path) (dsn : String) (t0 : Trace) (e : String)
    (ho : openErr env dsn t0 = none) (ha : acceptErr env dsn t0 = some e) :
    p.run env dsn t0 = ((none, some e), acceptTrace env dsn t0) := by
  simp only [openErr] at ho
  simp only [acceptErr, connectTrace, openTrace, List.append_assoc, List.cons_append,
    List.nil_append] at ha
  cases p <;>
    simp [Path.run, newFirebirdsqlConn, createFirebirdsqlConn, construct, acceptTrace,
      connectTrace, openTrace, ho, ha]

/-- The log and result of a constructor whose attach or create is refused. -/
theorem run_of_responseErr (env : Env) (p : Path) (dsn : String) (t0 : Trace) (e : String)
    (ho : openErr env dsn t0 = none) (ha : acceptErr env dsn t0 = none)
    (hr : responseErr env p dsn t0 = some e) :
    p.run env dsn t0 = ((none, some e), respondedTrace env p dsn t0) := by
  simp only [openErr] at ho
  simp only [acceptErr, connectTrace, openTrace, List.append_assoc, List.cons_append,
    List.nil_append] at ha
  cases p <;>
    simp only [responseErr, requestTrace, acceptTrace, connectTrace, openTrace, Path.request,
      List.append_assoc, List.cons_append, List.nil_append] at hr <;>
    simp [Path.run, newFirebirdsqlConn, createFirebirdsqlConn, construct, respondedTrace,
      requestTrace, acceptTrace, connectTrace, openTrace, Path.request, ho, ha, hr]

/-- The calls of the handshake hold no attach, create or transaction request. -/
theorem acceptTrace_requests (env : Env) (dsn : String) (t0 : Trace) :
    dbRequests ((acceptTrace env dsn t0).drop t0.length) = [] ∧
    txRequests ((acceptTrace env dsn t0).drop t0.length) = [] := by
  simp [acceptTrace, connectTrace, openTrace, dbRequests, txRequests, List.append_assoc]

/-- The calls up to the attach or create response hold no transaction request. -/
theorem respondedTrace_requests (env : Env) (p : Path) (dsn : String) (t0 : Trace) :
    txRequests ((respondedTrace env p dsn t0).drop t0.length) = [] := by
  cases p <;>
    simp [respondedTrace, requestTrace, acceptTrace, connectTrace, openTrace, txRequests,
      Path.request, List.append_assoc]

/-- C7: on either construction path, (1) if opening the transport fails with
`e`, the constructor returns the nil session with `e` after `parseDSN` and
`newWireProtocol` alone; (2) if the accept step fails with `e`, it returns the
nil session with `e` after the handshake calls, with no attach, create or
transaction request; (3) if the response to the attach or create request
fails with `e`, it returns the nil session with `e` after reading that
response, with no transaction request. -/
theorem construction_aborts_on_failure (env : Env) (p : Path) (dsn : String) (t0 : Trace)
    (e : String) :
    (openErr env dsn t0 = some e →
      p.run env dsn t0 =
        ((none, some e),
          t0 ++ [Op.parseDSN dsn, Op.newWireProtocol (env.parseDSN t0 dsn).addr])) ∧
    (openErr env dsn t0 = none → acceptErr env dsn t0 = some e →
      p.run env dsn t0 = ((none, some e), acceptTrace env dsn t0) ∧
      dbRequests ((p.run env dsn t0).2.drop t0.length) = [] ∧
      txRequests ((p.run env dsn t0).2.drop t0.length) = []) ∧
    (openErr env dsn t0 = none → acceptErr env dsn t0 = none →
        responseErr env p dsn t0 = some e →
      p.run env dsn t0 = ((none, some e), respondedTrace env p dsn t0) ∧
      txRequests ((p.run env dsn t0).2.drop t0.length) = []) := by
  refine ⟨?_, ?_, ?_⟩
  · intro ho
    rw [run_of_openErr env p dsn t0 e ho, openTrace]
  · intro ho ha
    rw [run_of_acceptErr env p dsn t0 e ho ha]
    exact ⟨rfl, acceptTrace_requests env dsn t0⟩
  · intro ho ha hr
    rw [run_of_responseErr env p dsn t0 e ho ha hr]
    exact ⟨rfl, respondedTrace_requests env p dsn t0⟩

/-- The three failures on concrete servers: the transport of the attach path
cannot be opened, the handshake of the create path is not accepted, the
attach request is refused. -/
theorem construction_aborts_on_failure_witness :
    (openErr envOpenFails "db" [] = some "dial failed" ∧
      Path.attach.run envOpenFails "db" [] =
        ((none, some "dial failed"),
          [] ++ [Op.parseDSN "db",
            Op.newWireProtocol (envOpenFails.parseDSN [] "db").addr])) ∧
    (openErr envAcceptFails "db" [] = none ∧
      acceptErr envAcceptFails "db" [] = some "accept failed" ∧
      Path.create.run envAcceptFails "db" [] =
        ((none, some "accept failed"), acceptTrace envAcceptFails "db" []) ∧
      dbRequests ((Path.create.run envAcceptFails "db" []).2.drop ([] : Trace).length) = [] ∧
      txRequests ((Path.create.run envAcceptFails "db" []).2.drop ([] : Trace).length) = []) ∧
    (openErr envResponseFails "db" [] = none ∧
      acceptErr envResponseFails "db" [] = none ∧
      responseErr envResponseFails Path.attach "db" [] = some "response failed" ∧
      Path.attach.run envResponseFails "db" [] =
        ((none, some "response failed"), respondedTrace envResponseFails Path.attach "db" []) ∧
      txRequests ((Path.attach.run envResponseFails "db" []).2.drop ([] : Trace).length) = []) :=
  ⟨⟨by decide,
    (construction_aborts_on_failure envOpenFails Path.attach "db" [] "dial failed").1
      (by decide)⟩,
   ⟨by decide, by decide,
    (construction_aborts_on_failure envAcceptFails Path.create "db" [] "accept failed").2.1
      (by decide) (by decide)⟩,
   ⟨by decide, by decide, by decide,
    (construction_aborts_on_failure envResponseFails Path.attach "db" []
      "response failed").2.2 (by decide) (by decide) (by decide)⟩⟩

/-- C9: on either construction path, when the transport open, the accept step
and the attach or create response succeed, the constructor returns a session
whose `isAutocommit` is true and whose `tx` is what the request of a new
transaction returned; that request is the only transaction request of the
construction, it is the last call, and it carries
`ISOLATION_LEVEL_READ_COMMITED` and autocommit flag true; the error returned
is the error of that request. -/
theorem construction_default_transaction (env : Env) (p : Path) (dsn : String) (t0 : Trace)
    (ho : openErr env dsn t0 = none) (ha : acceptErr env dsn t0 = none)
    (hr : responseErr env p dsn t0 = none) :
    ∃ fc fcArg : firebirdsqlConn,
      (p.run env dsn t0).1.1 = some fc ∧
      fc.isAutocommit = true ∧
      fc.tx = (env.newFirebirdsqlTx (respondedTrace env p dsn t0) fcArg
        env.ISOLATION_LEVEL_READ_COMMITED true).val ∧
      (p.run env dsn t0).1.2 = (env.newFirebirdsqlTx (respondedTrace env p dsn t0) fcArg
        env.ISOLATION_LEVEL_READ_COMMITED true).err ∧
      fcArg.tx = none ∧ fcArg.isAutocommit = true ∧
      (p.run env dsn t0).2 = respondedTrace env p dsn t0 ++
        [Op.newFirebirdsqlTx env.ISOLATION_LEVEL_READ_COMMITED true] ∧
      txRequests ((p.run env dsn t0).2.drop t0.length) =
        [(env.ISOLATION_LEVEL_READ_COMMITED, true)] := by
  simp only [openErr] at ho
  simp only [acceptErr, connectTrace, openTrace, List.append_assoc, List.cons_append,
    List.nil_append] at ha
  cases p <;>
    simp only [responseErr, requestTrace, acceptTrace, connectTrace, openTrace, Path.request,
      List.append_assoc, List.cons_append, List.nil_append] at hr <;>
    simp only [Path.run, newFirebirdsqlConn, createFirebirdsqlConn, construct, assemble,
      loadTimeZoneId, respondedTrace, requestTrace, acceptTrace, connectTrace, openTrace,
      Path.request, ho, ha, hr, List.append_assoc, List.cons_append, List.nil_append] <;>
    exact ⟨_, _, rfl, rfl, rfl, rfl, rfl, rfl, by simp, by simp [txRequests]⟩

/-- The create path on the server where every call succeeds yields the sample session. -/
theorem construction_default_transaction_witness :
    openErr envOk "db" [] = none ∧ acceptErr envOk "db" [] = none ∧
    responseErr envOk Path.create "db" [] = none ∧
    (Path.create.run envOk "db" []).1 = (some fc0, none) ∧
    ∃ fc fcArg : firebirdsqlConn,
      (Path.create.run envOk "db" []).1.1 = some fc ∧
      fc.isAutocommit = true ∧
      fc.tx = (envOk.newFirebirdsqlTx (respondedTrace envOk Path.create "db" []) fcArg
        envOk.ISOLATION_LEVEL_READ_COMMITED true).val ∧
      (Path.create.run envOk "db" []).1.2 =
        (envOk.newFirebirdsqlTx (respondedTrace envOk Path.create "db" []) fcArg
          envOk.ISOLATION_LEVEL_READ_COMMITED true).err ∧
      fcArg.tx = none ∧ fcArg.isAutocommit = true ∧
      (Path.create.run envOk "db" []).2 = respondedTrace envOk Path.create "db" [] ++
        [Op.newFirebirdsqlTx envOk.ISOLATION_LEVEL_READ_COMMITED true] ∧
      txRequests ((Path.create.run envOk "db" []).2.drop ([] : Trace).length) =
        [(envOk.ISOLATION_LEVEL_READ_COMMITED, true)] :=
  ⟨by decide, by decide, by decide, by decide,
    construction_default_transaction envOk Path.create "db" [] (by decide) (by decide)
      (by decide)⟩

/-- The session `exec` leaves has the current transaction and the autocommit
flag it was called with. -/
theorem exec_session_fields (env : Env) (fc : firebirdsqlConn) (q : String)
    (args : List Value) (t0 : Trace) :
    (exec env fc q args t0).2.1.tx = fc.tx ∧
    (exec env fc q args t0).2.1.isAutocommit = fc.isAutocommit := by
  simp only [exec, prepare]
  split
  · next h => simp only [Prod.mk.injEq] at h; obtain ⟨_, h2, _⟩ := h; subst h2; simp
  · next h =>
    simp only [Prod.mk.injEq] at h
    obtain ⟨_, h2, _⟩ := h
    subst h2
    repeat' split
    all_goals simp

/-- The calls of `exec` hold no request of a new transaction. -/
theorem exec_no_txRequest (env : Env) (fc : firebirdsqlConn) (q : String)
    (args : List Value) (t0 : Trace) :
    txRequests ((exec env fc q args t0).2.2.drop t0.length) = [] := by
  simp only [exec, prepare]
  split
  · next h =>
    simp only [Prod.mk.injEq] at h
    obtain ⟨_, _, h3⟩ := h
    subst h3
    simp [txRequests]
  · next h =>
    simp only [Prod.mk.injEq] at h
    obtain ⟨_, _, h3⟩ := h
    subst h3
    repeat' split
    all_goals simp [txRequests, List.append_assoc]

/-- The log of an `exec` whose prepare and execute succeed on a session whose
current transaction and both autocommit flags are set: prepare, execute,
commit, close. -/
theorem exec_autocommit_trace (env : Env) (fc : firebirdsqlConn) (q : String)
    (args : List Value) (t0 : Trace) (tx : firebirdsqlTx)
    (hp : prepareErr env fc q t0 = none)
    (hx : (executeReply env fc q args t0).err = none)
    (htx : fc.tx = some tx) (hs : fc.isAutocommit = true) (ht : tx.isAutocommit = true) :
    (exec env fc q args t0).2.2 =
      t0 ++ [Op.newFirebirdsqlStmt q, Op.stmtExec (preparedStmt env fc q t0) args,
        Op.txCommit tx, Op.stmtClose (preparedStmt env fc q t0)] := by
  cases fc with
  | mk wp ftx addr dbName user password lower auto cpub csec hs tz =>
    simp only at htx hs
    subst htx
    subst hs
    simp only [prepareErr, executeReply, preparedStmt, prepare] at hp hx
    simp only [exec, prepare, preparedStmt, hp, hx]
    simp [ht]

/-- C11: every `exec` call leaves the session with the current transaction
and the autocommit flag it had, and requests no new transaction.  Hence on a
session whose current transaction `tx` and both autocommit flags are set, two
successful `exec` calls in a row with no `begin` between them each prepare on
a session whose current transaction is `tx` and each commit `tx`: the commits
of the two calls are `[tx, tx]`. -/
theorem exec_keeps_current_transaction (env : Env) (fc : firebirdsqlConn) (q : String)
    (args : List Value) (t0 : Trace) :
    (exec env fc q args t0).2.1.tx = fc.tx ∧
    (exec env fc q args t0).2.1.isAutocommit = fc.isAutocommit ∧
    txRequests ((exec env fc q args t0).2.2.drop t0.length) = [] ∧
    (∀ (q2 : String) (a2 : List Value) (tx : firebirdsqlTx),
      fc.tx = some tx → fc.isAutocommit = true → tx.isAutocommit = true →
      prepareErr env fc q t0 = none → (executeReply env fc q args t0).err = none →
      prepareErr env (exec env fc q args t0).2.1 q2 (exec env fc q args t0).2.2 = none →
      (executeReply env (exec env fc q args t0).2.1 q2 a2
        (exec env fc q args t0).2.2).err = none →
      (execTwice env fc q args q2 a2 t0).2.2 =
        t0 ++ [Op.newFirebirdsqlStmt q, Op.stmtExec (preparedStmt env fc q t0) args,
          Op.txCommit tx, Op.stmtClose (preparedStmt env fc q t0),
          Op.newFirebirdsqlStmt q2,
          Op.stmtExec (preparedStmt env (exec env fc q args t0).2.1 q2
            (exec env fc q args t0).2.2) a2,
          Op.txCommit tx,
          Op.stmtClose (preparedStmt env (exec env fc q args t0).2.1 q2
            (exec env fc q args t0).2.2)] ∧
      committed ((execTwice env fc q args q2 a2 t0).2.2.drop t0.length) = [tx, tx] ∧
      txRequests ((execTwice env fc q args q2 a2 t0).2.2.drop t0.length) = [] ∧
      (execTwice env fc q args q2 a2 t0).2.1.tx = some tx) := by
  refine ⟨(exec_session_fields env fc q args t0).1, (exec_session_fields env fc q args t0).2,
    exec_no_txRequest env fc q args t0, ?_⟩
  intro q2 a2 tx htx hs ht hp1 hx1 hp2 hx2
  have hf := exec_session_fields env fc q args t0
  have h1 := exec_autocommit_trace env fc q args t0 tx hp1 hx1 htx hs ht
  have h2 := exec_autocommit_trace env (exec env fc q args t0).2.1 q2 a2
    (exec env fc q args t0).2.2 tx hp2 hx2 (hf.1.trans htx) (hf.2.trans hs) ht
  have hlog : (execTwice env fc q args q2 a2 t0).2.2 =
      t0 ++ [Op.newFirebirdsqlStmt q, Op.stmtExec (preparedStmt env fc q t0) args,
        Op.txCommit tx, Op.stmtClose (preparedStmt env fc q t0),
        Op.newFirebirdsqlStmt q2,
        Op.stmtExec (preparedStmt env (exec env fc q args t0).2.1 q2
          (exec env fc q args t0).2.2) a2,
        Op.txCommit tx,
        Op.stmtClose (preparedStmt env (exec env fc q args t0).2.1 q2
          (exec env fc q args t0).2.2)] := by
    unfold execTwice
    rw [h2]
    nth_rewrite 1 [h1]
    simp
  refine ⟨hlog, ?_, ?_, ?_⟩
  · rw [hlog]; simp [committed]
  · rw [hlog]; simp [txRequests]
  · unfold execTwice
    rw [(exec_session_fields env _ q2 a2 _).1, hf.1, htx]

/-- Two inserts in a row on the sample session both commit `tx0`. -/
theorem exec_keeps_current_transaction_witness :
    fc0.tx = some tx0 ∧ fc0.isAutocommit = true ∧ tx0.isAutocommit = true ∧
    (execTwice envOk fc0 "INSERT" [1] "UPDATE" [2] []).2.2 =
      [Op.newFirebirdsqlStmt "INSERT", Op.stmtExec ⟨1⟩ [1], Op.txCommit tx0,
        Op.stmtClose ⟨1⟩, Op.newFirebirdsqlStmt "UPDATE", Op.stmtExec ⟨1⟩ [2],
        Op.txCommit tx0, Op.stmtClose ⟨1⟩] ∧
    committed ((execTwice envOk fc0 "INSERT" [1] "UPDATE" [2] []).2.2.drop 0) = [tx0, tx0] ∧
    (execTwice envOk fc0 "INSERT" [1] "UPDATE" [2] []).2.1.tx = some tx0 :=
  ⟨rfl, rfl, rfl,
    ((exec_keeps_current_transaction envOk fc0 "INSERT" [1] []).2.2.2 "UPDATE" [2] tx0
      rfl rfl rfl (by decide) (by decide) (by decide) (by decide)).1,
    ((exec_keeps_current_transaction envOk fc0 "INSERT" [1] []).2.2.2 "UPDATE" [2] tx0
      rfl rfl rfl (by decide) (by decide) (by decide) (by decide)).2.1,
    ((exec_keeps_current_transaction envOk fc0 "INSERT" [1] []).2.2.2 "UPDATE" [2] tx0
      rfl rfl rfl (by decide) (by decide) (by decide) (by decide)).2.2.2⟩

/-- What `exec` returns on a session that has a current transaction whenever
its autocommit flag is set: the prepare error with no result, or else the
value and the error of the statement's `exec`. -/
theorem exec_returns (env : Env) (fc : firebirdsqlConn) (q : String)
    (args : List Value) (t0 : Trace)
    (hcur : fc.isAutocommit = true → fc.tx.isSome = true) :
    (exec env fc q args t0).1 =
      Outcome.ret (if (prepareErr env fc q t0).isSome then (none, prepareErr env fc q t0)
        else ((executeReply env fc q args t0).val, (executeReply env fc q args t0).err)) := by
  cases fc with
  | mk wp ftx addr dbName user password lower auto cpub csec hs tz =>
    simp only at hcur
    simp only [exec, prepare, prepareErr, executeReply, preparedStmt]
    cases hp : (env.newFirebirdsqlStmt t0
      ⟨wp, ftx, addr, dbName, user, password, lower, auto, cpub, csec, hs, tz⟩ q).err with
    | some e => simp
    | none =>
      simp only [Option.isSome_none, Bool.false_eq_true, if_false]
      split
      · next h => simp [h]
      · next h =>
        cases auto with
        | false => simp [h]
        | true =>
          cases ftx with
          | none => simp at hcur
          | some tx => cases ht : tx.isAutocommit <;> simp [h, ht]

/-- How `exec` ends, in every case: with the prepare error and no result; or
with the value and the error of a failed execute; or at the nil dereference
of `fc.tx.isAutocommit` when the autocommit flag is set and `fc.tx` is nil;
or with execute's value and a nil error. -/
theorem exec_outcome (env : Env) (fc : firebirdsqlConn) (q : String)
    (args : List Value) (t0 : Trace) :
    (exec env fc q args t0).1 =
      (if (prepareErr env fc q t0).isSome then Outcome.ret (none, prepareErr env fc q t0)
        else if (executeReply env fc q args t0).err.isSome then
          Outcome.ret ((executeReply env fc q args t0).val, (executeReply env fc q args t0).err)
        else if fc.isAutocommit = true ∧ fc.tx.isNone = true then Outcome.nilDeref
        else Outcome.ret ((executeReply env fc q args t0).val, none)) := by
  cases fc with
  | mk wp ftx addr dbName user password lower auto cpub csec hs tz =>
    simp only [exec, prepare, prepareErr, executeReply, preparedStmt]
    cases hp : (env.newFirebirdsqlStmt t0
      ⟨wp, ftx, addr, dbName, user, password, lower, auto, cpub, csec, hs, tz⟩ q).err with
    | some e => simp
    | none =>
      simp only [Option.isSome_none, Bool.false_eq_true, if_false]
      split
      · next h => simp [h]
      · next h =>
        cases auto with
        | false => simp [h]
        | true =>
          cases ftx with
          | none => simp [h]
          | some tx => cases ht : tx.isAutocommit <;> simp [h, ht]

/-- C12, the claim as written fails: on the sample session with a nil current
transaction (the session `begin` leaves when the transaction request fails
and yields nil), prepare and execute succeed, yet `exec` does not return
execute's result with a nil error: it stops at the nil dereference of
`fc.tx.isAutocommit`. -/
theorem exec_nil_transaction_no_return :
    (begin envTxFails fc0 1 []).2.1 = fcNoTx ∧
    fcNoTx.isAutocommit = true ∧ fcNoTx.tx = none ∧
    prepareErr envOk fcNoTx "INSERT" [] = none ∧
    (executeReply envOk fcNoTx "INSERT" [] []).err = none ∧
    (exec envOk fcNoTx "INSERT" [] []).1 = Outcome.nilDeref ∧
    (exec envOk fcNoTx "INSERT" [] []).1 ≠
      Outcome.ret ((executeReply envOk fcNoTx "INSERT" [] []).val, none) := by
  decide

/-- C12, amended: `exec` returns the prepare error with no result if prepare
failed, and the value and the error of the statement's `exec` if that
failed; when prepare and execute succeed on a session that has a current
transaction whenever its autocommit flag is set, it returns execute's result
with a nil error; and how `exec` ends is the same whatever `Commit` and the
statement's `Close` answer, so a failed autocommit commit is reported to the
caller as success. -/
theorem exec_error_ignores_commit_and_close (env : Env) (fc : firebirdsqlConn) (q : String)
    (args : List Value) (t0 : Trace) :
    (∀ e : String, prepareErr env fc q t0 = some e →
      (exec env fc q args t0).1 = Outcome.ret (none, some e)) ∧
    (∀ e : String, prepareErr env fc q t0 = none →
      (executeReply env fc q args t0).err = some e →
      (exec env fc q args t0).1 = Outcome.ret ((executeReply env fc q args t0).val, some e)) ∧
    ((fc.isAutocommit = true → fc.tx.isSome = true) →
      prepareErr env fc q t0 = none → (executeReply env fc q args t0).err = none →
      (exec env fc q args t0).1 = Outcome.ret ((executeReply env fc q args t0).val, none)) ∧
    (∀ (c : Trace → firebirdsqlConn → firebirdsqlTx → Reply Unit)
        (z : Trace → firebirdsqlConn → firebirdsqlStmt → Reply Unit),
      (exec (withCommitClose env c z) fc q args t0).1 = (exec env fc q args t0).1) := by
  refine ⟨?_, ?_, ?_, ?_⟩
  · intro e hp
    rw [exec_outcome, hp]
    simp
  · intro e hp hx
    rw [exec_outcome, hp, hx]
    simp
  · intro hcur hp hx
    rw [exec_outcome, hp, hx]
    cases hs : fc.isAutocommit with
    | false => simp
    | true =>
      have h := hcur hs
      cases ht : fc.tx with
      | none => rw [ht] at h; simp at h
      | some tx => simp
  · intro c z
    rw [exec_outcome env, exec_outcome (withCommitClose env c z)]
    rfl

/-- On the sample session, with a server whose `Commit` and statement `Close`
report errors, an insert whose prepare and execute succeed commits `tx0` and
returns its result with a nil error. -/
theorem exec_error_ignores_commit_and_close_witness :
    (fc0.isAutocommit = true → fc0.tx.isSome = true) ∧
    prepareErr envCommitFails fc0 "INSERT" [] = none ∧
    (executeReply envCommitFails fc0 "INSERT" [] []).err = none ∧
    (envCommitFails.txCommit
      [Op.newFirebirdsqlStmt "INSERT", Op.stmtExec ⟨1⟩ []] fc0 tx0).err =
        some "commit failed" ∧
    (exec envCommitFails fc0 "INSERT" [] []).2.2 =
      [Op.newFirebirdsqlStmt "INSERT", Op.stmtExec ⟨1⟩ [], Op.txCommit tx0, Op.stmtClose ⟨1⟩] ∧
    (executeReply envCommitFails fc0 "INSERT" [] []).val = some 1 ∧
    (exec envCommitFails fc0 "INSERT" [] []).1 =
      Outcome.ret ((executeReply envCommitFails fc0 "INSERT" [] []).val, none) :=
  ⟨fun _ => rfl, by decide, by decide, by decide, by decide, by decide,
    (exec_error_ignores_commit_and_close envCommitFails fc0 "INSERT" [] []).2.2.1
      (fun _ => rfl) (by decide) (by decide)⟩

/-- C13: on either construction path, the constructor run with another error
answered by `parseDSN` (same address and other values) makes the same calls
and returns the same session and error; its first two calls are always
`parseDSN` and then `newWireProtocol` on the address `parseDSN` returned; and
on a server where `parseDSN` reports an error and every later step succeeds,
both paths return the sample session with a nil error. -/
theorem parseDSN_error_ignored (env : Env) (p : Path) (dsn : String) (t0 : Trace)
    (f : Trace → String → error) :
    p.run (withParseErr env f) dsn t0 = p.run env dsn t0 ∧
    (p.run env dsn t0).2.take (t0.length + 2) =
      t0 ++ [Op.parseDSN dsn, Op.newWireProtocol (env.parseDSN t0 dsn).addr] ∧
    (envParseFails.parseDSN [] "db").err = some "invalid DSN" ∧
    (Path.attach.run envParseFails "db" []).1 = (some fc0, none) ∧
    (Path.create.run envParseFails "db" []).1 = (some fc0, none) := by
  refine ⟨?_, ?_, by decide, by decide, by decide⟩
  · cases p <;> rfl
  · cases p
    all_goals
      simp only [Path.run, newFirebirdsqlConn, createFirebirdsqlConn, construct, assemble]
      repeat' split
    all_goals simp [List.append_assoc, List.take_append]

end Firebirdsql
